import Mathlib

/-!
Shallow embedding of `src/index.js` of mobilemed-org/actions-code-review:
a GitHub Action that fetches a pull request's metadata and diff, asks a
completion model for a review, and posts the model's feedback back as
comments.  The external collaborators (GitHub REST API, completion
endpoint, and the JavaScript builtin `JSON.parse`) are modelled as
oracles in an `Env` record; the orchestrator `run` is embedded as a pure
function from the `Env` to a trace of observable API calls plus a final
outcome (the `success` output versus `core.setFailed`).
-/

namespace CodeReview

/-- Pull-request metadata returned by `octokit.rest.pulls.get`
(the fields of `pr` that `index.js` reads). -/
structure PR where
  headSha : String
  baseSha : String
  title : String
  body : Option String
  deriving Repr, DecidableEq

/-- One entry of `octokit.rest.pulls.listFiles` as projected by
`index.js` (lines 47-54). -/
structure FileChange where
  filename : String
  status : String
  additions : Int
  deletions : Int
  changes : Int
  patch : Option String
  deriving Repr, DecidableEq

/-- An existing review/discussion comment as projected into the prompt
(lines 134-139): body, optional path and line, creation timestamp. -/
structure ExistingComment where
  body : String
  path : Option String
  line : Option Int
  created_at : String
  deriving Repr, DecidableEq

/-- The value the orchestrator reads from
`response.choices[0].message.content` (line 192).  Per the design notes
of the specification the completion client is a black box that returns
either a schema-conformant object (with the `is_ok` flag and a `body`)
or free-form text; `index.js` probes `feedback.is_ok` (line 197) and
`feedback.match` (line 209), so the tagged variant captures exactly the
two shapes the code distinguishes. -/
inductive Verdict where
  | obj (is_ok : Bool) (body : String)
  | text (s : String)
  deriving Repr, DecidableEq

/-- The object produced by `JSON.parse` on one brace-delimited segment,
restricted to the fields `index.js` reads (lines 217-233).  Absent JSON
fields are `none` (JavaScript `undefined`); field types follow the
response schema of lines 146-189. -/
structure CommentData where
  body : Option String
  commit_id : Option String
  path : Option String
  line : Option Int
  side : Option String
  start_line : Option Int
  start_side : Option String
  deriving Repr, DecidableEq

/-- The argument record of `octokit.rest.pulls.createReviewComment`
(lines 223-234), after the defaulting of lines 219-220. -/
structure InlinePayload where
  body : String
  commit_id : String
  path : String
  line : Int
  side : String
  start_line : Option Int
  start_side : Option String
  deriving Repr, DecidableEq

/-- Observable side effects of one invocation, in program order: the
four context fetches (lines 19-44), the completion call (line 143), an
inline-comment submission attempt (line 223), a discussion-comment
submission attempt with a string body (lines 198, 244, 254), the
degenerate discussion-comment attempt whose `body:` is the raw
non-string feedback value (line 254 reached when `feedback.match`
throws), and a `core.warning` (line 239). -/
inductive Event where
  | fetchPR
  | fetchFiles
  | fetchReviewComments
  | fetchIssueComments
  | callModel
  | postInline (p : InlinePayload)
  | postDiscussion (body : String)
  | postDiscussionObj (v : Verdict)
  | warn (msg : String)
  deriving Repr, DecidableEq

/-- Final outcome of `run`: `success` is `core.setOutput('success',
'true')` (line 265), `failed` is `core.setFailed(msg)` (line 267). -/
inductive Outcome where
  | success
  | failed (msg : String)
  deriving Repr, DecidableEq

/-- The external collaborators, as deterministic oracles.  `Except`
models a JavaScript throw carrying `error.message`.  `jsonParse` is the
builtin `JSON.parse` restricted to the comment schema; submission
oracles decide success per payload. -/
structure Env where
  prGet : Except String PR
  listFiles : Except String (List FileChange)
  listReviewComments : Except String (List ExistingComment)
  listIssueComments : Except String (List ExistingComment)
  completion : Except String Verdict
  jsonParse : String → Except String CommentData
  createReviewComment : InlinePayload → Except String Unit
  createIssueComment : String → Except String Unit
  createIssueCommentObj : Verdict → Except String Unit

/-- `core.setFailed` message format of line 267. -/
def failMsg (m : String) : String := "Action failed with error: " ++ m

/-- `core.warning` message format of line 239. -/
def parseWarnMsg (m : String) : String := "Failed to parse JSON comment: " ++ m

/-- The scan of `feedback.match(/\x7b[\s\S]*?\x7d/g)` (line 209) as a
state machine over the character list: outside a match, skip until an
opening brace; inside, extend lazily until the first closing brace and
emit; an unterminated opening brace yields no further match. -/
def braceScan : Option (List Char) → List Char → List (List Char)
  | _, [] => []
  | none, c :: rest =>
      if c = '\x7b' then braceScan (some [c]) rest else braceScan none rest
  | some acc, c :: rest =>
      if c = '\x7d' then (acc ++ [c]) :: braceScan none rest
      else braceScan (some (acc ++ [c])) rest

/-- All matches of the brace regex on a string, in order.  The result is
empty exactly when `feedback.match` returns `null` (line 211). -/
def braceMatches (s : String) : List String :=
  (braceScan none s.data).map fun l => String.mk l

/-- JavaScript truthiness of an optional string field: `undefined` and
`""` are falsy. -/
def truthyS : Option String → Bool
  | some s => s ≠ ""
  | none => false

/-- JavaScript truthiness of an optional integer field: `undefined` and
`0` are falsy. -/
def truthyI : Option Int → Bool
  | some n => n ≠ 0
  | none => false

/-- The guard `commentData.body && commentData.path && commentData.line`
of line 217. -/
def postable (cd : CommentData) : Bool :=
  truthyS cd.body && truthyS cd.path && truthyI cd.line

/-- JavaScript `x || d` on an optional string field (lines 219-220):
the default applies when the field is absent or falsy (empty). -/
def jsOr : Option String → String → String
  | some s, d => if s = "" then d else s
  | none, d => d

/-- The payload assembled for `createReviewComment` (lines 219-233):
`commit_id` and `side` are defaulted via `||`, every other field is
forwarded as parsed. -/
def mkPayload (headSha : String) (cd : CommentData) : InlinePayload :=
  { body := cd.body.getD ""
    commit_id := jsOr cd.commit_id headSha
    path := cd.path.getD ""
    line := cd.line.getD 0
    side := jsOr cd.side "RIGHT"
    start_line := cd.start_line
    start_side := cd.start_side }

/-- One iteration of the `for (const jsonStr of jsonMatches)` loop
(lines 212-241): parse the segment, check the truthiness guard, default
and submit; any throw inside the iteration is caught at line 238 and
logged as a warning. -/
def processSegment (env : Env) (headSha : String) (seg : String) : List Event :=
  match env.jsonParse seg with
  | .error m => [.warn (parseWarnMsg m)]
  | .ok cd =>
      if postable cd then
        let p := mkPayload headSha cd
        match env.createReviewComment p with
        | .ok _ => [.postInline p]
        | .error m => [.postInline p, .warn (parseWarnMsg m)]
      else []

/-- Interpretation of the feedback value (lines 197-262).  The `is_ok`
branch posts one discussion comment; otherwise on a text value the
brace matches are processed one by one (the loop never throws, so this
path always reaches line 265), and when there is no match the whole raw
text is posted as a fallback discussion comment; if that fallback throws
it is caught at line 252 and retried once at line 254.  On a non-text
value `feedback.match` throws a TypeError, caught at line 252, and the
raw object is passed as the `body:` of the fallback comment. -/
def interpret (env : Env) (headSha : String) : Verdict → List Event × Outcome
  | .obj true b =>
      match env.createIssueComment b with
      | .ok _ => ([.postDiscussion b], .success)
      | .error m => ([.postDiscussion b], .failed (failMsg m))
  | .obj false b =>
      match env.createIssueCommentObj (.obj false b) with
      | .ok _ => ([.postDiscussionObj (.obj false b)], .success)
      | .error m => ([.postDiscussionObj (.obj false b)], .failed (failMsg m))
  | .text s =>
      let segs := braceMatches s
      if segs.length > 0 then
        ((segs.map (processSegment env headSha)).flatten, .success)
      else
        match env.createIssueComment s with
        | .ok _ => ([.postDiscussion s], .success)
        | .error _ =>
            match env.createIssueComment s with
            | .ok _ => ([.postDiscussion s, .postDiscussion s], .success)
            | .error m2 =>
                ([.postDiscussion s, .postDiscussion s], .failed (failMsg m2))

/-- The whole `run` function (lines 8-269): four context fetches, the
completion call, interpretation, and the top-level `try/catch` that
turns any uncaught throw into `core.setFailed` with the error's
message.  Events record every API call attempted, in order. -/
def run (env : Env) : List Event × Outcome :=
  match env.prGet with
  | .error m => ([.fetchPR], .failed (failMsg m))
  | .ok pr =>
      match env.listFiles with
      | .error m => ([.fetchPR, .fetchFiles], .failed (failMsg m))
      | .ok _ =>
          match env.listReviewComments with
          | .error m =>
              ([.fetchPR, .fetchFiles, .fetchReviewComments], .failed (failMsg m))
          | .ok _ =>
              match env.listIssueComments with
              | .error m =>
                  ([.fetchPR, .fetchFiles, .fetchReviewComments,
                    .fetchIssueComments], .failed (failMsg m))
              | .ok _ =>
                  match env.completion with
                  | .error m =>
                      ([.fetchPR, .fetchFiles, .fetchReviewComments,
                        .fetchIssueComments, .callModel], .failed (failMsg m))
                  | .ok fb =>
                      let r := interpret env pr.headSha fb
                      ([.fetchPR, .fetchFiles, .fetchReviewComments,
                        .fetchIssueComments, .callModel] ++ r.1, r.2)

/-- The inline-comment submission attempts in a trace, in order. -/
def inlinePosts (evs : List Event) : List InlinePayload :=
  evs.filterMap fun e =>
    match e with
    | .postInline p => some p
    | _ => none

/-- Number of discussion-comment submission attempts in a trace
(string-bodied or raw-object-bodied). -/
def discussionCount (evs : List Event) : Nat :=
  evs.countP fun e =>
    match e with
    | .postDiscussion _ => true
    | .postDiscussionObj _ => true
    | _ => false

/-- The bodies of string-bodied discussion-comment attempts, in order. -/
def discussionBodies (evs : List Event) : List String :=
  evs.filterMap fun e =>
    match e with
    | .postDiscussion b => some b
    | _ => none

/-- Number of completion-model calls in a trace. -/
def modelCalls (evs : List Event) : Nat :=
  evs.countP fun e =>
    match e with
    | .callModel => true
    | _ => false

/-- Number of `core.warning` records in a trace. -/
def warnCount (evs : List Event) : Nat :=
  evs.countP fun e =>
    match e with
    | .warn _ => true
    | _ => false

/-- The body of the single discussion comment a positive verdict leads
to: `feedback.body` for the structured shape (line 202), the whole raw
text for the degraded free-text shape (line 248). -/
def verdictSummary : Verdict → String
  | .obj _ b => b
  | .text s => s

/-! ### Unfolding lemmas -/

/-- The common prefix of events once all four context fetches succeed
and the completion call returns. -/
def preEvents : List Event :=
  [.fetchPR, .fetchFiles, .fetchReviewComments, .fetchIssueComments, .callModel]

theorem run_ok (env : Env) (pr : PR) (fls : List FileChange)
    (rcs ics : List ExistingComment) (fb : Verdict)
    (h1 : env.prGet = .ok pr) (h2 : env.listFiles = .ok fls)
    (h3 : env.listReviewComments = .ok rcs)
    (h4 : env.listIssueComments = .ok ics)
    (h5 : env.completion = .ok fb) :
    run env = (preEvents ++ (interpret env pr.headSha fb).1,
               (interpret env pr.headSha fb).2) := by
  simp [run, preEvents, h1, h2, h3, h4, h5]

theorem interpret_text_segs (env : Env) (sha s : String)
    (h : braceMatches s ≠ []) :
    interpret env sha (.text s) =
      (((braceMatches s).map (processSegment env sha)).flatten, .success) := by
  simp [interpret, List.length_pos.mpr h]

theorem interpret_text_nosegs (env : Env) (sha s : String)
    (h : braceMatches s = [])
    (hpost : env.createIssueComment s = .ok ()) :
    interpret env sha (.text s) = ([.postDiscussion s], .success) := by
  simp [interpret, h, hpost]

theorem processSegment_parse_error (env : Env) (sha seg m : String)
    (h : env.jsonParse seg = .error m) :
    processSegment env sha seg = [.warn (parseWarnMsg m)] := by
  simp [processSegment, h]

theorem processSegment_not_postable (env : Env) (sha seg : String)
    (cd : CommentData) (h : env.jsonParse seg = .ok cd)
    (h2 : postable cd = false) :
    processSegment env sha seg = [] := by
  simp [processSegment, h, h2]

theorem processSegment_submit_ok (env : Env) (sha seg : String)
    (cd : CommentData) (h : env.jsonParse seg = .ok cd)
    (h2 : postable cd = true)
    (h3 : env.createReviewComment (mkPayload sha cd) = .ok ()) :
    processSegment env sha seg = [.postInline (mkPayload sha cd)] := by
  simp [processSegment, h, h2, h3]

theorem processSegment_submit_error (env : Env) (sha seg m : String)
    (cd : CommentData) (h : env.jsonParse seg = .ok cd)
    (h2 : postable cd = true)
    (h3 : env.createReviewComment (mkPayload sha cd) = .error m) :
    processSegment env sha seg =
      [.postInline (mkPayload sha cd), .warn (parseWarnMsg m)] := by
  simp [processSegment, h, h2, h3]

theorem inlinePosts_append (a b : List Event) :
    inlinePosts (a ++ b) = inlinePosts a ++ inlinePosts b := by
  simp [inlinePosts]

theorem discussionCount_append (a b : List Event) :
    discussionCount (a ++ b) = discussionCount a + discussionCount b := by
  simp [discussionCount]

theorem warnCount_append (a b : List Event) :
    warnCount (a ++ b) = warnCount a + warnCount b := by
  simp [warnCount]

theorem modelCalls_append (a b : List Event) :
    modelCalls (a ++ b) = modelCalls a + modelCalls b := by
  simp [modelCalls]

theorem discussionBodies_append (a b : List Event) :
    discussionBodies (a ++ b) = discussionBodies a ++ discussionBodies b := by
  simp [discussionBodies]

theorem inlinePosts_preEvents : inlinePosts preEvents = [] := by decide

theorem discussionCount_preEvents : discussionCount preEvents = 0 := by decide

theorem warnCount_preEvents : warnCount preEvents = 0 := by decide

theorem discussionBodies_preEvents : discussionBodies preEvents = [] := by
  decide

/-- Shorthand for the per-segment success hypothesis of the submission
loop: the segment parses and passes the truthiness guard of line 217. -/
def ValidSeg (env : Env) (seg : String) (cd : CommentData) : Prop :=
  env.jsonParse seg = .ok cd ∧ postable cd = true

theorem inlinePosts_processSegment_valid (env : Env) (sha seg : String)
    (cd : CommentData) (h : ValidSeg env seg cd) :
    inlinePosts (processSegment env sha seg) = [mkPayload sha cd] := by
  obtain ⟨h1, h2⟩ := h
  cases h3 : env.createReviewComment (mkPayload sha cd) with
  | ok u =>
      cases u
      rw [processSegment_submit_ok env sha seg cd h1 h2 h3]
      simp [inlinePosts]
  | error m =>
      rw [processSegment_submit_error env sha seg m cd h1 h2 h3]
      simp [inlinePosts]

/-- The submission loop attempts one inline comment per valid segment,
in recovery order, with the payload built by `mkPayload`. -/
theorem inlinePosts_flatten_of_forall2 (env : Env) (sha : String)
    {segs : List String} {cds : List CommentData}
    (h : List.Forall₂ (ValidSeg env) segs cds) :
    inlinePosts ((segs.map (processSegment env sha)).flatten) =
      cds.map (mkPayload sha) := by
  induction h with
  | nil => simp [inlinePosts]
  | cons hpair _ ih =>
      simp only [List.map_cons, List.flatten_cons, inlinePosts_append, ih,
        inlinePosts_processSegment_valid env sha _ _ hpair, List.cons_append,
        List.nil_append]

/-! ### Concrete environments used by the witnesses -/

/-- A concrete pull request for witness instantiations. -/
def prW : PR :=
  { headSha := "a1b2c3", baseSha := "d4e5f6", title := "t", body := none }

/-- A baseline environment where every collaborator call succeeds and
the completion returns an explicit positive verdict. -/
def baseEnv : Env :=
  { prGet := .ok prW
    listFiles := .ok [{ filename := "f.py", status := "modified",
                        additions := 1, deletions := 0, changes := 1,
                        patch := some "@@ -1 +1 @@" }]
    listReviewComments := .ok []
    listIssueComments := .ok []
    completion := .ok (.obj true "Everything looks good!")
    jsonParse := fun _ => .error "Unexpected token"
    createReviewComment := fun _ => .ok ()
    createIssueComment := fun _ => .ok ()
    createIssueCommentObj := fun _ => .ok () }

/-! ### C1 -/

/-- C1: for every response recognized as a positive verdict (an
explicit `is_ok` flag set to `true`, or — in the degraded free-text
path — the literal phrase "Everything looks good!"), `run` posts
exactly one top-level discussion comment whose body is the verdict's
summary, and posts zero inline comments. -/
theorem C1_positive_verdict_one_discussion
    (env : Env) (pr : PR) (fls : List FileChange)
    (rcs ics : List ExistingComment) (fb : Verdict)
    (h1 : env.prGet = .ok pr) (h2 : env.listFiles = .ok fls)
    (h3 : env.listReviewComments = .ok rcs)
    (h4 : env.listIssueComments = .ok ics)
    (h5 : env.completion = .ok fb)
    (hpos : (∃ b, fb = .obj true b) ∨ fb = .text "Everything looks good!")
    (hpost : env.createIssueComment (verdictSummary fb) = .ok ()) :
    discussionBodies (run env).1 = [verdictSummary fb] ∧
    discussionCount (run env).1 = 1 ∧
    inlinePosts (run env).1 = [] := by
  rw [run_ok env pr fls rcs ics fb h1 h2 h3 h4 h5]
  rcases hpos with ⟨b, rfl⟩ | rfl
  · simp only [verdictSummary] at hpost
    simp only [interpret, hpost, verdictSummary]
    rw [discussionBodies_append, discussionCount_append, inlinePosts_append,
      discussionBodies_preEvents, discussionCount_preEvents,
      inlinePosts_preEvents]
    simp [discussionBodies, discussionCount, inlinePosts]
  · simp only [verdictSummary] at hpost
    rw [interpret_text_nosegs env pr.headSha _ (by decide) hpost]
    simp only [verdictSummary]
    rw [discussionBodies_append, discussionCount_append, inlinePosts_append,
      discussionBodies_preEvents, discussionCount_preEvents,
      inlinePosts_preEvents]
    simp [discussionBodies, discussionCount, inlinePosts]

/-- Witness for C1 at a concrete environment: the structured positive
verdict of `baseEnv` yields one discussion comment with the verdict's
body and no inline comment. -/
theorem C1_witness :
    discussionBodies (run baseEnv).1 =
      [verdictSummary (Verdict.obj true "Everything looks good!")] ∧
    discussionCount (run baseEnv).1 = 1 ∧
    inlinePosts (run baseEnv).1 = [] :=
  C1_positive_verdict_one_discussion baseEnv prW
    [{ filename := "f.py", status := "modified", additions := 1,
       deletions := 0, changes := 1, patch := some "@@ -1 +1 @@" }] [] []
    (.obj true "Everything looks good!") rfl rfl rfl rfl rfl
    (Or.inl ⟨"Everything looks good!", rfl⟩) rfl

/-! ### C2 -/

/-- C2: a free-text response with zero brace-delimited segments and no
positive-verdict signal results in exactly one fallback discussion
comment whose body equals the full raw response text, and no inline
comment — the reviewer always receives at least one comment. -/
theorem C2_fallback_posts_raw_text
    (env : Env) (pr : PR) (fls : List FileChange)
    (rcs ics : List ExistingComment) (s : String)
    (h1 : env.prGet = .ok pr) (h2 : env.listFiles = .ok fls)
    (h3 : env.listReviewComments = .ok rcs)
    (h4 : env.listIssueComments = .ok ics)
    (h5 : env.completion = .ok (.text s))
    (hnopos : s ≠ "Everything looks good!")
    (hseg : braceMatches s = [])
    (hpost : env.createIssueComment s = .ok ()) :
    discussionBodies (run env).1 = [s] ∧
    discussionCount (run env).1 = 1 ∧
    inlinePosts (run env).1 = [] := by
  rw [run_ok env pr fls rcs ics (.text s) h1 h2 h3 h4 h5,
    interpret_text_nosegs env pr.headSha s hseg hpost]
  rw [discussionBodies_append, discussionCount_append, inlinePosts_append,
    discussionBodies_preEvents, discussionCount_preEvents,
    inlinePosts_preEvents]
  simp [discussionBodies, discussionCount, inlinePosts]

/-- Witness for C2: a prose-only response with no brace segment is
posted verbatim as the single fallback discussion comment. -/
theorem C2_witness :
    discussionBodies (run { baseEnv with
        completion := .ok (.text "I could not produce JSON.") }).1 =
      ["I could not produce JSON."] ∧
    discussionCount (run { baseEnv with
        completion := .ok (.text "I could not produce JSON.") }).1 = 1 ∧
    inlinePosts (run { baseEnv with
        completion := .ok (.text "I could not produce JSON.") }).1 = [] :=
  C2_fallback_posts_raw_text _ prW
    [{ filename := "f.py", status := "modified", additions := 1,
       deletions := 0, changes := 1, patch := some "@@ -1 +1 @@" }] [] []
    "I could not produce JSON." rfl rfl rfl rfl rfl (by decide) (by decide)
    rfl

/-! ### C3 -/

/-- C3: a non-positive free-text response whose brace scan yields
between one and three segments, all parsing to schema-valid (postable)
records, leads to exactly one inline-comment submission per segment, in
order; each submitted payload defaults `commit_id` to the head commit
when the segment omitted it and `side` to "RIGHT" when omitted. -/
theorem C3_valid_segments_each_submitted
    (env : Env) (pr : PR) (fls : List FileChange)
    (rcs ics : List ExistingComment) (s : String)
    (segs : List String) (cds : List CommentData)
    (h1 : env.prGet = .ok pr) (h2 : env.listFiles = .ok fls)
    (h3 : env.listReviewComments = .ok rcs)
    (h4 : env.listIssueComments = .ok ics)
    (h5 : env.completion = .ok (.text s))
    (hseg : braceMatches s = segs)
    (hall : List.Forall₂ (ValidSeg env) segs cds)
    (hlow : 1 ≤ segs.length) (hhigh : segs.length ≤ 3) :
    inlinePosts (run env).1 = cds.map (mkPayload pr.headSha) ∧
    (inlinePosts (run env).1).length = segs.length ∧
    (∀ cd ∈ cds, cd.commit_id = none →
      (mkPayload pr.headSha cd).commit_id = pr.headSha) ∧
    (∀ cd ∈ cds, cd.side = none → (mkPayload pr.headSha cd).side = "RIGHT") := by
  have hne : braceMatches s ≠ [] := by
    rw [hseg]
    intro h
    rw [h] at hlow
    simp at hlow
  rw [run_ok env pr fls rcs ics (.text s) h1 h2 h3 h4 h5,
    interpret_text_segs env pr.headSha s hne]
  simp only [hseg, inlinePosts_append, inlinePosts_preEvents, List.nil_append,
    inlinePosts_flatten_of_forall2 env pr.headSha hall]
  refine ⟨by simp, ?_, ?_, ?_⟩
  · simp [hall.length_eq]
  · intro cd _ h
    simp [mkPayload, jsOr, h]
  · intro cd _ h
    simp [mkPayload, jsOr, h]

/-- First segment of the C3 witness response. -/
def seg31 : String := "\x7b\"body\":\"B1\",\"path\":\"a.py\",\"line\":3\x7d"

/-- Second segment of the C3 witness response (explicit side, no
commit). -/
def seg32 : String :=
  "\x7b\"body\":\"B2\",\"path\":\"b.py\",\"line\":7,\"side\":\"LEFT\"\x7d"

/-- The C3 witness response: two JSON objects wrapped in prose. -/
def s3 : String := "Issues found: " ++ seg31 ++ " and " ++ seg32

/-- Parse of `seg31`. -/
def cd31 : CommentData :=
  { body := some "B1", commit_id := none, path := some "a.py",
    line := some 3, side := none, start_line := none, start_side := none }

/-- Parse of `seg32`. -/
def cd32 : CommentData :=
  { body := some "B2", commit_id := none, path := some "b.py",
    line := some 7, side := some "LEFT", start_line := none,
    start_side := none }

/-- Environment for the C3 witness: the completion returns `s3` and
`JSON.parse` behaves as on its two segments. -/
def envC3 : Env :=
  { baseEnv with
    completion := .ok (.text s3)
    jsonParse := fun seg =>
      if seg = seg31 then .ok cd31
      else if seg = seg32 then .ok cd32
      else .error "Unexpected token" }

/-- Witness for C3 at a two-segment response. -/
theorem C3_witness :
    inlinePosts (run envC3).1 = [cd31, cd32].map (mkPayload prW.headSha) ∧
    (inlinePosts (run envC3).1).length = [seg31, seg32].length ∧
    (∀ cd ∈ [cd31, cd32], cd.commit_id = none →
      (mkPayload prW.headSha cd).commit_id = prW.headSha) ∧
    (∀ cd ∈ [cd31, cd32], cd.side = none →
      (mkPayload prW.headSha cd).side = "RIGHT") :=
  C3_valid_segments_each_submitted envC3 prW
    [{ filename := "f.py", status := "modified", additions := 1,
       deletions := 0, changes := 1, patch := some "@@ -1 +1 @@" }] [] []
    s3 [seg31, seg32] [cd31, cd32] rfl rfl rfl rfl rfl (by decide)
    (List.Forall₂.cons ⟨rfl, rfl⟩ (List.Forall₂.cons ⟨rfl, rfl⟩
      List.Forall₂.nil)) (by decide) (by decide)

/-! ### C4 -/

/-- C4: the submission loop applies no runtime cap: a free-text
response whose brace scan yields N valid segments leads to N inline
submissions for every N, including N above the prompt's limit of
three. -/
theorem C4_no_runtime_cap
    (env : Env) (pr : PR) (fls : List FileChange)
    (rcs ics : List ExistingComment) (s : String)
    (segs : List String) (cds : List CommentData)
    (h1 : env.prGet = .ok pr) (h2 : env.listFiles = .ok fls)
    (h3 : env.listReviewComments = .ok rcs)
    (h4 : env.listIssueComments = .ok ics)
    (h5 : env.completion = .ok (.text s))
    (hseg : braceMatches s = segs)
    (hall : List.Forall₂ (ValidSeg env) segs cds)
    (hne : segs ≠ []) :
    (inlinePosts (run env).1).length = segs.length := by
  have hne' : braceMatches s ≠ [] := by rw [hseg]; exact hne
  rw [run_ok env pr fls rcs ics (.text s) h1 h2 h3 h4 h5,
    interpret_text_segs env pr.headSha s hne']
  simp only [hseg, inlinePosts_append, inlinePosts_preEvents, List.nil_append,
    inlinePosts_flatten_of_forall2 env pr.headSha hall]
  simp [hall.length_eq]

/-- The repeated segment of the C4 witness response. -/
def seg4 : String := "\x7b\"body\":\"B\",\"path\":\"p.py\",\"line\":1\x7d"

/-- The C4 witness response: five valid segments, above the prompt's
limit of three. -/
def s4 : String := seg4 ++ seg4 ++ seg4 ++ seg4 ++ seg4

/-- Parse of `seg4`. -/
def cd4 : CommentData :=
  { body := some "B", commit_id := none, path := some "p.py",
    line := some 1, side := none, start_line := none, start_side := none }

/-- Environment for the C4 witness. -/
def envC4 : Env :=
  { baseEnv with
    completion := .ok (.text s4)
    jsonParse := fun seg =>
      if seg = seg4 then .ok cd4 else .error "Unexpected token" }

/-- Witness for C4: five valid segments produce five inline
submissions — more than three, so no cap is applied. -/
theorem C4_witness :
    (inlinePosts (run envC4).1).length = 5 :=
  C4_no_runtime_cap envC4 prW
    [{ filename := "f.py", status := "modified", additions := 1,
       deletions := 0, changes := 1, patch := some "@@ -1 +1 @@" }] [] []
    s4 [seg4, seg4, seg4, seg4, seg4] [cd4, cd4, cd4, cd4, cd4]
    rfl rfl rfl rfl rfl (by decide)
    (List.Forall₂.cons ⟨rfl, rfl⟩ (List.Forall₂.cons ⟨rfl, rfl⟩
      (List.Forall₂.cons ⟨rfl, rfl⟩ (List.Forall₂.cons ⟨rfl, rfl⟩
        (List.Forall₂.cons ⟨rfl, rfl⟩ List.Forall₂.nil)))))
    (by decide)

/-! ### C5 -/

/-- Environment for the C5 counterexample: the response holds one
well-formed segment (`seg31`) and one schema-violating segment that
parses but has no `path` field. -/
def envC5x : Env :=
  { baseEnv with
    completion := .ok (.text (seg31 ++ " and " ++ "\x7b\"body\":\"x\",\"line\":3\x7d"))
    jsonParse := fun seg =>
      if seg = seg31 then .ok cd31
      else if seg = "\x7b\"body\":\"x\",\"line\":3\x7d" then
        .ok { body := some "x", commit_id := none, path := none,
              line := some 3, side := none, start_line := none,
              start_side := none }
      else .error "Unexpected token" }

/-- C5 counterexample: the claim promises a warning for a
schema-violating malformed segment, but a concrete response with one
well-formed segment and one parseable segment lacking `path` yields
one inline submission and ZERO warnings — the guard of line 217 has no
else branch, so the offending segment is dropped silently. -/
theorem C5_counterexample :
    braceMatches (seg31 ++ " and " ++ "\x7b\"body\":\"x\",\"line\":3\x7d") =
      [seg31, "\x7b\"body\":\"x\",\"line\":3\x7d"] ∧
    envC5x.jsonParse "\x7b\"body\":\"x\",\"line\":3\x7d" =
      .ok { body := some "x", commit_id := none, path := none,
            line := some 3, side := none, start_line := none,
            start_side := none } ∧
    postable { body := some "x", commit_id := none, path := none,
               line := some 3, side := none, start_line := none,
               start_side := none } = false ∧
    inlinePosts (run envC5x).1 = [mkPayload prW.headSha cd31] ∧
    warnCount (run envC5x).1 = 0 ∧
    (run envC5x).2 = .success :=
  ⟨by decide, rfl, by decide, by decide, by decide, by decide⟩

/-- C5 (amended): a free-text response whose brace scan yields one
well-formed postable segment and one malformed segment (in either
order, malformed meaning it fails to parse or parses to a record
failing the guard of line 217) leads to exactly one inline submission
and no fatal error; the malformed segment is skipped, and a warning is
recorded for it exactly when it is unparseable — a schema-violating
segment that parses is skipped silently, with no warning. -/
theorem C5_malformed_segment_skipped
    (env : Env) (pr : PR) (fls : List FileChange)
    (rcs ics : List ExistingComment) (s s1 s2 : String)
    (cd : CommentData)
    (h1 : env.prGet = .ok pr) (h2 : env.listFiles = .ok fls)
    (h3 : env.listReviewComments = .ok rcs)
    (h4 : env.listIssueComments = .ok ics)
    (h5 : env.completion = .ok (.text s))
    (hseg : braceMatches s = [s1, s2] ∨ braceMatches s = [s2, s1])
    (hok : env.jsonParse s1 = .ok cd) (hcd : postable cd = true)
    (hbad : (∃ m, env.jsonParse s2 = .error m) ∨
      (∃ cd2, env.jsonParse s2 = .ok cd2 ∧ postable cd2 = false))
    (hsub : env.createReviewComment (mkPayload pr.headSha cd) = .ok ()) :
    inlinePosts (run env).1 = [mkPayload pr.headSha cd] ∧
    (run env).2 = .success ∧
    (∀ m, env.jsonParse s2 = .error m →
      warnCount (run env).1 = 1 ∧
      Event.warn (parseWarnMsg m) ∈ (run env).1) ∧
    (∀ cd2, env.jsonParse s2 = .ok cd2 → warnCount (run env).1 = 0) := by
  rcases hbad with ⟨m, hm⟩ | ⟨cd2, hok2, hpost2⟩
  · rcases hseg with hseg | hseg
    · have hne : braceMatches s ≠ [] := by rw [hseg]; simp
      rw [run_ok env pr fls rcs ics (.text s) h1 h2 h3 h4 h5,
        interpret_text_segs env pr.headSha s hne]
      simp only [hseg, List.map_cons, List.map_nil, List.flatten_cons,
        List.flatten_nil,
        processSegment_submit_ok env pr.headSha s1 cd hok hcd hsub,
        processSegment_parse_error env pr.headSha s2 m hm]
      refine ⟨by simp [inlinePosts, preEvents], by simp, ?_, ?_⟩
      · intro m2 hm2
        rw [hm] at hm2
        injection hm2 with h
        subst h
        simp [warnCount, preEvents]
      · intro cd2 h
        rw [hm] at h
        cases h
    · have hne : braceMatches s ≠ [] := by rw [hseg]; simp
      rw [run_ok env pr fls rcs ics (.text s) h1 h2 h3 h4 h5,
        interpret_text_segs env pr.headSha s hne]
      simp only [hseg, List.map_cons, List.map_nil, List.flatten_cons,
        List.flatten_nil,
        processSegment_submit_ok env pr.headSha s1 cd hok hcd hsub,
        processSegment_parse_error env pr.headSha s2 m hm]
      refine ⟨by simp [inlinePosts, preEvents], by simp, ?_, ?_⟩
      · intro m2 hm2
        rw [hm] at hm2
        injection hm2 with h
        subst h
        simp [warnCount, preEvents]
      · intro cd2 h
        rw [hm] at h
        cases h
  · rcases hseg with hseg | hseg
    · have hne : braceMatches s ≠ [] := by rw [hseg]; simp
      rw [run_ok env pr fls rcs ics (.text s) h1 h2 h3 h4 h5,
        interpret_text_segs env pr.headSha s hne]
      simp only [hseg, List.map_cons, List.map_nil, List.flatten_cons,
        List.flatten_nil,
        processSegment_submit_ok env pr.headSha s1 cd hok hcd hsub,
        processSegment_not_postable env pr.headSha s2 cd2 hok2 hpost2]
      refine ⟨by simp [inlinePosts, preEvents], by simp, ?_, ?_⟩
      · intro m2 hm2
        rw [hok2] at hm2
        cases hm2
      · intro cd2a h
        simp [warnCount, preEvents]
    · have hne : braceMatches s ≠ [] := by rw [hseg]; simp
      rw [run_ok env pr fls rcs ics (.text s) h1 h2 h3 h4 h5,
        interpret_text_segs env pr.headSha s hne]
      simp only [hseg, List.map_cons, List.map_nil, List.flatten_cons,
        List.flatten_nil,
        processSegment_submit_ok env pr.headSha s1 cd hok hcd hsub,
        processSegment_not_postable env pr.headSha s2 cd2 hok2 hpost2]
      refine ⟨by simp [inlinePosts, preEvents], by simp, ?_, ?_⟩
      · intro m2 hm2
        rw [hok2] at hm2
        cases hm2
      · intro cd2a h
        simp [warnCount, preEvents]

/-- The malformed second match of the C5 witness response: the body of
the second JSON object contains a closing brace inside a code snippet,
so the lazy scan truncates the match there, leaving an unterminated
string that `JSON.parse` rejects. -/
def seg52 : String := "\x7b\"body\":\"if (x) \x7b return; \x7d"

/-- The C5 witness response: one valid segment, then an object whose
body string embeds braces; the scan recovers `seg31` and the truncated
`seg52`. -/
def s5 : String :=
  seg31 ++ " then " ++ seg52 ++ "\",\"path\":\"c.py\",\"line\":2\x7d"

/-- Environment for the C5 witness. -/
def envC5 : Env :=
  { baseEnv with
    completion := .ok (.text s5)
    jsonParse := fun seg =>
      if seg = seg31 then .ok cd31
      else .error "Unexpected end of JSON input" }

/-- Witness for the amended C5: the valid segment is submitted, the
unparseable malformed one yields exactly one warning, and the run
succeeds. -/
theorem C5_amended_witness :
    inlinePosts (run envC5).1 = [mkPayload prW.headSha cd31] ∧
    (run envC5).2 = .success ∧
    (∀ m, envC5.jsonParse seg52 = .error m →
      warnCount (run envC5).1 = 1 ∧
      Event.warn (parseWarnMsg m) ∈ (run envC5).1) ∧
    (∀ cd2, envC5.jsonParse seg52 = .ok cd2 → warnCount (run envC5).1 = 0) :=
  C5_malformed_segment_skipped envC5 prW
    [{ filename := "f.py", status := "modified", additions := 1,
       deletions := 0, changes := 1, patch := some "@@ -1 +1 @@" }] [] []
    s5 seg31 seg52 cd31
    rfl rfl rfl rfl rfl (Or.inl (by decide)) rfl rfl
    (Or.inl ⟨"Unexpected end of JSON input", rfl⟩) rfl

/-! ### C6 -/

/-- C6: if any of the four context fetches fails, the completion model
is never called, no comment of any kind is posted, and the invocation
reports failure carrying the underlying error's message. -/
theorem C6_context_fetch_failure_fatal
    (env : Env) (m : String)
    (h : env.prGet = .error m ∨
      (∃ pr, env.prGet = .ok pr ∧ env.listFiles = .error m) ∨
      (∃ pr fls, env.prGet = .ok pr ∧ env.listFiles = .ok fls ∧
        env.listReviewComments = .error m) ∨
      (∃ pr fls rcs, env.prGet = .ok pr ∧ env.listFiles = .ok fls ∧
        env.listReviewComments = .ok rcs ∧
        env.listIssueComments = .error m)) :
    modelCalls (run env).1 = 0 ∧ inlinePosts (run env).1 = [] ∧
    discussionCount (run env).1 = 0 ∧
    (run env).2 = .failed (failMsg m) := by
  rcases h with h | ⟨pr, h1, h⟩ | ⟨pr, fls, h1, h2, h⟩ |
    ⟨pr, fls, rcs, h1, h2, h3, h⟩
  · simp [run, h, modelCalls, inlinePosts, discussionCount]
  · simp [run, h1, h, modelCalls, inlinePosts, discussionCount]
  · simp [run, h1, h2, h, modelCalls, inlinePosts, discussionCount]
  · simp [run, h1, h2, h3, h, modelCalls, inlinePosts, discussionCount]

/-- Environment for the C6 witness: the pull request does not exist. -/
def envC6 : Env := { baseEnv with prGet := .error "Not Found" }

/-- Witness for C6: a failing `pulls.get` aborts before the model call,
posts nothing, and fails with the error's message. -/
theorem C6_witness :
    modelCalls (run envC6).1 = 0 ∧ inlinePosts (run envC6).1 = [] ∧
    discussionCount (run envC6).1 = 0 ∧
    (run envC6).2 = .failed (failMsg "Not Found") :=
  C6_context_fetch_failure_fatal envC6 "Not Found" (Or.inl rfl)

/-! ### C7 -/

/-- C7: a failure while submitting one inline comment is non-fatal:
with two valid segments whose first submission fails and second
succeeds, both drafts are attempted in order, the failed one is
recorded as a warning, and the invocation still succeeds. -/
theorem C7_submission_failure_nonfatal
    (env : Env) (pr : PR) (fls : List FileChange)
    (rcs ics : List ExistingComment) (s s1 s2 m : String)
    (cd1 cd2 : CommentData)
    (h1 : env.prGet = .ok pr) (h2 : env.listFiles = .ok fls)
    (h3 : env.listReviewComments = .ok rcs)
    (h4 : env.listIssueComments = .ok ics)
    (h5 : env.completion = .ok (.text s))
    (hseg : braceMatches s = [s1, s2])
    (hp1 : env.jsonParse s1 = .ok cd1) (hq1 : postable cd1 = true)
    (hp2 : env.jsonParse s2 = .ok cd2) (hq2 : postable cd2 = true)
    (hfail : env.createReviewComment (mkPayload pr.headSha cd1) = .error m)
    (hok2 : env.createReviewComment (mkPayload pr.headSha cd2) = .ok ()) :
    inlinePosts (run env).1 =
      [mkPayload pr.headSha cd1, mkPayload pr.headSha cd2] ∧
    Event.warn (parseWarnMsg m) ∈ (run env).1 ∧
    (run env).2 = .success := by
  have hne : braceMatches s ≠ [] := by rw [hseg]; simp
  rw [run_ok env pr fls rcs ics (.text s) h1 h2 h3 h4 h5,
    interpret_text_segs env pr.headSha s hne]
  simp only [hseg, List.map_cons, List.map_nil, List.flatten_cons,
    List.flatten_nil,
    processSegment_submit_error env pr.headSha s1 m cd1 hp1 hq1 hfail,
    processSegment_submit_ok env pr.headSha s2 cd2 hp2 hq2 hok2]
  simp [inlinePosts, preEvents]

/-- The C7 witness response: two valid segments. -/
def s7 : String := seg31 ++ " and " ++ seg32

/-- Environment for the C7 witness: submitting the first draft throws
(its line is outside the diff), the second succeeds. -/
def envC7 : Env :=
  { baseEnv with
    completion := .ok (.text s7)
    jsonParse := fun seg =>
      if seg = seg31 then .ok cd31
      else if seg = seg32 then .ok cd32
      else .error "Unexpected token"
    createReviewComment := fun p =>
      if p = mkPayload prW.headSha cd31 then
        .error "Line is outside of the diff"
      else .ok () }

/-- Witness for C7: both drafts are attempted, the failed first one is
warned about, and the run still succeeds. -/
theorem C7_witness :
    inlinePosts (run envC7).1 =
      [mkPayload prW.headSha cd31, mkPayload prW.headSha cd32] ∧
    Event.warn (parseWarnMsg "Line is outside of the diff") ∈
      (run envC7).1 ∧
    (run envC7).2 = .success :=
  C7_submission_failure_nonfatal envC7 prW
    [{ filename := "f.py", status := "modified", additions := 1,
       deletions := 0, changes := 1, patch := some "@@ -1 +1 @@" }] [] []
    s7 seg31 seg32 "Line is outside of the diff" cd31 cd32
    rfl rfl rfl rfl rfl (by decide) rfl rfl rfl rfl rfl rfl

/-! ### C8 -/

/-- A segment the loop rejects: it fails to parse, or parses to a
record failing the truthiness guard of line 217. -/
def RejectedSeg (env : Env) (seg : String) : Prop :=
  (∃ m, env.jsonParse seg = .error m) ∨
  (∃ cd, env.jsonParse seg = .ok cd ∧ postable cd = false)

theorem rejected_flatten_no_posts (env : Env) (sha : String) :
    ∀ segs : List String, (∀ seg ∈ segs, RejectedSeg env seg) →
      inlinePosts ((segs.map (processSegment env sha)).flatten) = [] ∧
      discussionCount ((segs.map (processSegment env sha)).flatten) = 0
  | [], _ => by simp [inlinePosts, discussionCount]
  | seg :: rest, h => by
      have hrest := rejected_flatten_no_posts env sha rest
        (fun x hx => h x (List.mem_cons_of_mem seg hx))
      have hhd := h seg (List.mem_cons_self seg rest)
      rcases hhd with ⟨m, hm⟩ | ⟨cd, hcd, hpost⟩
      · simp only [List.map_cons, List.flatten_cons, inlinePosts_append,
          discussionCount_append, processSegment_parse_error env sha seg m hm,
          hrest.1, hrest.2]
        simp [inlinePosts, discussionCount]
      · simp only [List.map_cons, List.flatten_cons, inlinePosts_append,
          discussionCount_append,
          processSegment_not_postable env sha seg cd hcd hpost,
          hrest.1, hrest.2]
        simp [inlinePosts, discussionCount]

/-- C8: if the brace scan finds at least one match but every match is
rejected (parse failure, or missing/falsy `body`, `path` or `line`),
the invocation posts no comment at all — neither inline nor fallback —
yet still reports success. -/
theorem C8_all_rejected_posts_nothing
    (env : Env) (pr : PR) (fls : List FileChange)
    (rcs ics : List ExistingComment) (s : String)
    (h1 : env.prGet = .ok pr) (h2 : env.listFiles = .ok fls)
    (h3 : env.listReviewComments = .ok rcs)
    (h4 : env.listIssueComments = .ok ics)
    (h5 : env.completion = .ok (.text s))
    (hne : braceMatches s ≠ [])
    (hall : ∀ seg ∈ braceMatches s, RejectedSeg env seg) :
    inlinePosts (run env).1 = [] ∧ discussionCount (run env).1 = 0 ∧
    (run env).2 = .success := by
  rw [run_ok env pr fls rcs ics (.text s) h1 h2 h3 h4 h5,
    interpret_text_segs env pr.headSha s hne]
  have hfl := rejected_flatten_no_posts env pr.headSha (braceMatches s) hall
  simp only [inlinePosts_append, discussionCount_append, inlinePosts_preEvents,
    discussionCount_preEvents, hfl.1, hfl.2, List.nil_append]
  simp

/-- Environment for the C8 witness: the response has two matches, one
unparseable and one parsing to a record with no `line` field. -/
def envC8 : Env :=
  { baseEnv with
    completion := .ok (.text "\x7bgarbage\x7d and \x7b\"body\":\"B\",\"path\":\"p\"\x7d")
    jsonParse := fun seg =>
      if seg = "\x7b\"body\":\"B\",\"path\":\"p\"\x7d" then
        .ok { body := some "B", commit_id := none, path := some "p",
              line := none, side := none, start_line := none,
              start_side := none }
      else .error "Unexpected token g" }

/-- Witness for C8: both matches are rejected, nothing is posted, and
the run still succeeds. -/
theorem C8_witness :
    inlinePosts (run envC8).1 = [] ∧ discussionCount (run envC8).1 = 0 ∧
    (run envC8).2 = .success :=
  C8_all_rejected_posts_nothing envC8 prW
    [{ filename := "f.py", status := "modified", additions := 1,
       deletions := 0, changes := 1, patch := some "@@ -1 +1 @@" }] [] []
    "\x7bgarbage\x7d and \x7b\"body\":\"B\",\"path\":\"p\"\x7d" rfl rfl rfl rfl rfl
    (by decide)
    (by
      intro seg hseg
      have : seg = "\x7bgarbage\x7d" ∨ seg = "\x7b\"body\":\"B\",\"path\":\"p\"\x7d" := by
        have hm : braceMatches "\x7bgarbage\x7d and \x7b\"body\":\"B\",\"path\":\"p\"\x7d" =
            ["\x7bgarbage\x7d", "\x7b\"body\":\"B\",\"path\":\"p\"\x7d"] := by decide
        rw [hm] at hseg
        simpa using hseg
      rcases this with rfl | rfl
      · exact Or.inl ⟨"Unexpected token g", rfl⟩
      · exact Or.inr ⟨_, rfl, rfl⟩)

/-! ### C9 -/

/-- C9: the postability check uses truthiness, not field presence: a
parsed segment whose `body` is the empty string, or whose `line` is 0,
or whose `path` is the empty string, is silently skipped — it
contributes no event, so no inline comment is submitted and no warning
is logged; with it as the only match, nothing at all is posted and the
run succeeds. -/
theorem C9_falsy_fields_silently_skipped
    (env : Env) (pr : PR) (fls : List FileChange)
    (rcs ics : List ExistingComment) (s seg : String) (cd : CommentData)
    (h1 : env.prGet = .ok pr) (h2 : env.listFiles = .ok fls)
    (h3 : env.listReviewComments = .ok rcs)
    (h4 : env.listIssueComments = .ok ics)
    (h5 : env.completion = .ok (.text s))
    (hseg : braceMatches s = [seg])
    (hp : env.jsonParse seg = .ok cd)
    (hfalsy : cd.body = some "" ∨ cd.line = some 0 ∨ cd.path = some "") :
    processSegment env pr.headSha seg = [] ∧
    inlinePosts (run env).1 = [] ∧ warnCount (run env).1 = 0 ∧
    discussionCount (run env).1 = 0 ∧ (run env).2 = .success := by
  have hpost : postable cd = false := by
    rcases hfalsy with h | h | h <;> simp [postable, truthyS, truthyI, h]
  have hps := processSegment_not_postable env pr.headSha seg cd hp hpost
  have hne : braceMatches s ≠ [] := by rw [hseg]; simp
  refine ⟨hps, ?_⟩
  rw [run_ok env pr fls rcs ics (.text s) h1 h2 h3 h4 h5,
    interpret_text_segs env pr.headSha s hne]
  simp only [hseg, List.map_cons, List.map_nil, List.flatten_cons,
    List.flatten_nil, hps]
  simp [inlinePosts, warnCount, discussionCount, preEvents]

/-- The C9 witness segment: all three anchor fields present but falsy
(`line` is 0). -/
def seg9 : String := "\x7b\"body\":\"B\",\"path\":\"p.py\",\"line\":0\x7d"

/-- Environment for the C9 witness. -/
def envC9 : Env :=
  { baseEnv with
    completion := .ok (.text seg9)
    jsonParse := fun seg =>
      if seg = seg9 then
        .ok { body := some "B", commit_id := none, path := some "p.py",
              line := some 0, side := none, start_line := none,
              start_side := none }
      else .error "Unexpected token" }

/-- Witness for C9: a segment with `line: 0` is dropped with no
comment and no warning. -/
theorem C9_witness :
    processSegment envC9 prW.headSha seg9 = [] ∧
    inlinePosts (run envC9).1 = [] ∧ warnCount (run envC9).1 = 0 ∧
    discussionCount (run envC9).1 = 0 ∧ (run envC9).2 = .success :=
  C9_falsy_fields_silently_skipped envC9 prW
    [{ filename := "f.py", status := "modified", additions := 1,
       deletions := 0, changes := 1, patch := some "@@ -1 +1 @@" }] [] []
    seg9 seg9
    { body := some "B", commit_id := none, path := some "p.py",
      line := some 0, side := none, start_line := none, start_side := none }
    rfl rfl rfl rfl rfl (by decide) rfl (Or.inr (Or.inl rfl))

/-! ### C10 -/

/-- C10: only `commit_id` and `side` are ever defaulted; `body`,
`path`, `line`, `start_line` and `start_side` are forwarded to the
submission exactly as parsed — in particular `start_side` is never
defaulted, even when `start_line` is present — while a present truthy
`commit_id` or `side` is also forwarded unchanged. -/
theorem C10_only_commit_and_side_defaulted
    (env : Env) (pr : PR) (fls : List FileChange)
    (rcs ics : List ExistingComment) (s seg : String) (cd : CommentData)
    (bs ps : String) (ln : Int)
    (h1 : env.prGet = .ok pr) (h2 : env.listFiles = .ok fls)
    (h3 : env.listReviewComments = .ok rcs)
    (h4 : env.listIssueComments = .ok ics)
    (h5 : env.completion = .ok (.text s))
    (hseg : braceMatches s = [seg])
    (hp : env.jsonParse seg = .ok cd)
    (hb : cd.body = some bs) (hbne : bs ≠ "")
    (hpath : cd.path = some ps) (hpne : ps ≠ "")
    (hl : cd.line = some ln) (hlne : ln ≠ 0) :
    inlinePosts (run env).1 = [mkPayload pr.headSha cd] ∧
    (mkPayload pr.headSha cd).body = bs ∧
    (mkPayload pr.headSha cd).path = ps ∧
    (mkPayload pr.headSha cd).line = ln ∧
    (mkPayload pr.headSha cd).start_line = cd.start_line ∧
    (mkPayload pr.headSha cd).start_side = cd.start_side ∧
    (∀ c, cd.commit_id = some c → c ≠ "" →
      (mkPayload pr.headSha cd).commit_id = c) ∧
    (∀ sd, cd.side = some sd → sd ≠ "" →
      (mkPayload pr.headSha cd).side = sd) ∧
    (cd.commit_id = none → (mkPayload pr.headSha cd).commit_id = pr.headSha) ∧
    (cd.side = none → (mkPayload pr.headSha cd).side = "RIGHT") := by
  have hpost : postable cd = true := by
    simp [postable, truthyS, truthyI, hb, hpath, hl, hbne, hpne, hlne]
  have hne : braceMatches s ≠ [] := by rw [hseg]; simp
  constructor
  · rw [run_ok env pr fls rcs ics (.text s) h1 h2 h3 h4 h5,
      interpret_text_segs env pr.headSha s hne]
    simp only [hseg, List.map_cons, List.map_nil, List.flatten_cons,
      List.flatten_nil, inlinePosts_append, inlinePosts_preEvents,
      List.nil_append, List.append_nil,
      inlinePosts_processSegment_valid env pr.headSha seg cd ⟨hp, hpost⟩]
  refine ⟨?_, ?_, ?_, ?_, ?_, ?_, ?_, ?_, ?_⟩
  · simp [mkPayload, hb]
  · simp [mkPayload, hpath]
  · simp [mkPayload, hl]
  · simp [mkPayload]
  · simp [mkPayload]
  · intro c hc hcne
    simp [mkPayload, jsOr, hc, hcne]
  · intro sd hsd hsdne
    simp [mkPayload, jsOr, hsd, hsdne]
  · intro hc
    simp [mkPayload, jsOr, hc]
  · intro hsd
    simp [mkPayload, jsOr, hsd]

/-- The C10 witness segment: multi-line comment with `start_line`
present, `start_side` and `commit_id` absent, `side` present. -/
def seg10 : String :=
  "\x7b\"body\":\"B\",\"path\":\"p.py\",\"start_line\":1,\"line\":4,\"side\":\"LEFT\"\x7d"

/-- Parse of `seg10`. -/
def cd10 : CommentData :=
  { body := some "B", commit_id := none, path := some "p.py",
    line := some 4, side := some "LEFT", start_line := some 1,
    start_side := none }

/-- Environment for the C10 witness. -/
def envC10 : Env :=
  { baseEnv with
    completion := .ok (.text seg10)
    jsonParse := fun seg =>
      if seg = seg10 then .ok cd10 else .error "Unexpected token" }

/-- Witness for C10: the payload forwards `body`, `path`, `line`,
`start_line` and the absent `start_side` unchanged, keeps the explicit
"LEFT" side, and defaults only the absent `commit_id`. -/
theorem C10_witness :
    inlinePosts (run envC10).1 = [mkPayload prW.headSha cd10] ∧
    (mkPayload prW.headSha cd10).body = "B" ∧
    (mkPayload prW.headSha cd10).path = "p.py" ∧
    (mkPayload prW.headSha cd10).line = 4 ∧
    (mkPayload prW.headSha cd10).start_line = cd10.start_line ∧
    (mkPayload prW.headSha cd10).start_side = cd10.start_side ∧
    (∀ c, cd10.commit_id = some c → c ≠ "" →
      (mkPayload prW.headSha cd10).commit_id = c) ∧
    (∀ sd, cd10.side = some sd → sd ≠ "" →
      (mkPayload prW.headSha cd10).side = sd) ∧
    (cd10.commit_id = none →
      (mkPayload prW.headSha cd10).commit_id = prW.headSha) ∧
    (cd10.side = none → (mkPayload prW.headSha cd10).side = "RIGHT") :=
  C10_only_commit_and_side_defaulted envC10 prW
    [{ filename := "f.py", status := "modified", additions := 1,
       deletions := 0, changes := 1, patch := some "@@ -1 +1 @@" }] [] []
    seg10 seg10 cd10 "B" "p.py" 4
    rfl rfl rfl rfl rfl (by decide) rfl rfl (by decide) rfl (by decide) rfl
    (by decide)

end CodeReview
